import Mathlib

/-!
Verification of the ToDo application: a shallow embedding of the React
frontend `src/frontend/src/App.js` (event handlers as explicit state
transitions, HTTP calls as emitted request values with their outcomes passed
in), together with a model of the backend REST service taken from the
specification where the backend source is not available.
-/

/-- The TodoItem entity as consumed by the frontend: `id`, `title`, optional
`description`, `completed` flag and `created_at` timestamp. -/
structure Todo where
  id : String
  title : String
  description : Option String
  completed : Bool
  created_at : Nat
  deriving Repr, DecidableEq

/-- Form state of the App component: `formData` holds exactly a `title` and a
`description` string (App.js lines 10-13). -/
structure FormData where
  title : String
  description : String
  deriving Repr, DecidableEq

/-- JSON body of a PUT request: each of the three mutable fields may be
present in the object or absent from it. -/
structure UpdatePayload where
  title : Option String
  description : Option String
  completed : Option Bool
  deriving Repr, DecidableEq

/-- The HTTP requests the frontend issues through axios. -/
inductive Request where
  | getTodos (url : String)
  | postTodo (url : String) (body : FormData)
  | putTodo (url : String) (body : UpdatePayload)
  | deleteTodo (url : String)
  deriving Repr, DecidableEq

/-- React state of the App component (App.js lines 7-14). -/
structure AppState where
  todos : List Todo
  loading : Bool
  error : Option String
  formData : FormData
  editingId : Option String
  deriving Repr, DecidableEq

/-- Result of running an event handler to completion: the final component
state, the HTTP requests issued in order, and the console.error lines. -/
structure HandlerResult where
  state : AppState
  requests : List Request
  consoleLogs : List String
  deriving Repr, DecidableEq

/-- App.js line 5: `process.env.REACT_APP_API_BASE_URL || 'http://backend:8000/'`.
An unset or empty environment variable falls back to the literal default,
which carries a trailing slash. -/
def API_BASE_URL (env : Option String) : String :=
  match env with
  | none => "http://backend:8000/"
  | some s => if s = "" then "http://backend:8000/" else s

/-- Collection endpoint URL, interpolated in App.js as the base URL followed
by a slash and the path. -/
def todosUrl (env : Option String) : String :=
  API_BASE_URL env ++ "/todos"

/-- Single-item endpoint URL, interpolated in App.js as the base URL followed
by a slash, the path and the id. -/
def todoItemUrl (env : Option String) (id : String) : String :=
  API_BASE_URL env ++ "/todos/" ++ id

/-- JavaScript `String.prototype.trim`: remove whitespace from both ends of
the string. -/
def jsTrim (s : String) : String :=
  String.mk
    (((s.data.dropWhile Char.isWhitespace).reverse.dropWhile
        Char.isWhitespace).reverse)

/-- App.js lines 21-33, `fetchTodos`: issue a GET of the collection; on
success store the response in `todos` and clear the error; on failure keep
`todos`, set the generic banner and log the detail; the `finally` clause
clears `loading` either way. -/
def fetchTodos (env : Option String) (s : AppState)
    (resp : Except String (List Todo)) : HandlerResult :=
  match resp with
  | .ok data =>
      { state := { s with todos := data, error := none, loading := false },
        requests := [Request.getTodos (todosUrl env)],
        consoleLogs := [] }
  | .error err =>
      { state := { s with
          error := some "Failed to fetch todos. Make sure the backend is running.",
          loading := false },
        requests := [Request.getTodos (todosUrl env)],
        consoleLogs := ["Error fetching todos: " ++ err] }

/-- Initial React state (App.js lines 7-14). -/
def initialState : AppState :=
  { todos := [], loading := true, error := none,
    formData := { title := "", description := "" }, editingId := none }

/-- The mount effect (App.js lines 17-19) with an empty dependency list: it
runs `fetchTodos` exactly once, on the initial state. -/
def onMount (env : Option String) (resp : Except String (List Todo)) :
    HandlerResult :=
  fetchTodos env initialState resp

/-- The JSON object sent by the edit-update PUT is `formData` itself, whose
keys are exactly `title` and `description`; it has no `completed` key. -/
def payloadOfForm (fd : FormData) : UpdatePayload :=
  { title := some fd.title, description := some fd.description,
    completed := none }

/-- App.js lines 35-55, `handleSubmit`: a blank trimmed title returns before
any request; otherwise PUT (when editing) or POST (when creating) the form
data; on success clear the editing id and the form and re-fetch the list; on
failure set the generic banner and log the detail. -/
def handleSubmit (env : Option String) (s : AppState)
    (mutResp : Except String Unit) (fetchResp : Except String (List Todo)) :
    HandlerResult :=
  if jsTrim s.formData.title = "" then
    { state := s, requests := [], consoleLogs := [] }
  else
    let req := match s.editingId with
      | some eid => Request.putTodo (todoItemUrl env eid) (payloadOfForm s.formData)
      | none => Request.postTodo (todosUrl env) s.formData
    match mutResp with
    | .error err =>
        { state := { s with error := some "Failed to save todo" },
          requests := [req],
          consoleLogs := ["Error saving todo: " ++ err] }
    | .ok _ =>
        let s1 := { s with editingId := none,
                           formData := { title := "", description := "" } }
        let fr := fetchTodos env s1 fetchResp
        { state := fr.state, requests := req :: fr.requests,
          consoleLogs := fr.consoleLogs }

/-- App.js lines 57-63, `handleEdit`: copy the todo into the form (a missing
description becomes the empty string) and remember its id. -/
def handleEdit (s : AppState) (todo : Todo) : AppState :=
  { s with
      formData := { title := todo.title,
                    description := todo.description.getD "" },
      editingId := some todo.id }

/-- App.js lines 65-68, `handleCancelEdit`: clear the form and editing id. -/
def handleCancelEdit (s : AppState) : AppState :=
  { s with formData := { title := "", description := "" }, editingId := none }

/-- App.js lines 70-80, `handleToggleComplete`: PUT a body whose only key is
`completed`, set to the negation of the todo's current value; on success
re-fetch the list; on failure set the generic banner and log the detail. -/
def handleToggleComplete (env : Option String) (s : AppState) (todo : Todo)
    (mutResp : Except String Unit) (fetchResp : Except String (List Todo)) :
    HandlerResult :=
  let req := Request.putTodo (todoItemUrl env todo.id)
    { title := none, description := none, completed := some (!todo.completed) }
  match mutResp with
  | .error err =>
      { state := { s with error := some "Failed to update todo" },
        requests := [req],
        consoleLogs := ["Error updating todo: " ++ err] }
  | .ok _ =>
      let fr := fetchTodos env s fetchResp
      { state := fr.state, requests := req :: fr.requests,
        consoleLogs := fr.consoleLogs }

/-- App.js lines 82-92, `handleDelete`: only when the window.confirm dialog is
accepted, issue the DELETE; on success re-fetch the list; on failure set the
generic banner and log the detail; a declined dialog does nothing. -/
def handleDelete (env : Option String) (s : AppState) (todoId : String)
    (confirmed : Bool) (mutResp : Except String Unit)
    (fetchResp : Except String (List Todo)) : HandlerResult :=
  if confirmed then
    let req := Request.deleteTodo (todoItemUrl env todoId)
    match mutResp with
    | .error err =>
        { state := { s with error := some "Failed to delete todo" },
          requests := [req],
          consoleLogs := ["Error deleting todo: " ++ err] }
    | .ok _ =>
        let fr := fetchTodos env s fetchResp
        { state := fr.state, requests := req :: fr.requests,
          consoleLogs := fr.consoleLogs }
  else
    { state := s, requests := [], consoleLogs := [] }

/-- App.js lines 111-115 render the error banner as a single conditional
element showing the `error` state; this is the complete list of error texts
on the page. -/
def renderedErrors (s : AppState) : List String :=
  match s.error with
  | some e => [e]
  | none => []

/-- Backend error taxonomy of the specification: validation failure (400) and
not-found (404). -/
inductive ApiError where
  | validation
  | notFound
  deriving Repr, DecidableEq

/-- Create payload of the POST endpoint: a required `title` and an optional
`description`. -/
structure CreatePayload where
  title : String
  description : Option String
  deriving Repr, DecidableEq

/-- Modelled from the spec: the backend service (`backend/main.py`) is not
among the sources, so the document store is modelled as the collection of
TodoItem documents plus a counter for store-assigned identifiers and the
creation clock. -/
structure Db where
  items : List Todo
  nextId : Nat
  now : Nat
  deriving Repr, DecidableEq

/-- Modelled from the spec: `create(payload)` rejects a title blank after
trimming with a validation error; otherwise it assigns a fresh id and
`created_at`, defaults `completed` to false, stores the item and returns it. -/
def createTodo (db : Db) (p : CreatePayload) : Except ApiError (Todo × Db) :=
  if jsTrim p.title = "" then .error .validation
  else
    let t : Todo := { id := toString db.nextId, title := p.title,
                      description := p.description, completed := false,
                      created_at := db.now }
    .ok (t, { db with items := db.items ++ [t], nextId := db.nextId + 1 })

/-- Modelled from the spec: `get(id)` returns the TodoItem matching `id`, or
a not-found error when no such item exists. -/
def getTodoApi (db : Db) (id : String) : Except ApiError Todo :=
  match db.items.find? (fun t => t.id == id) with
  | some t => .ok t
  | none => .error .notFound

/-- Modelled from the spec: `delete(id)` removes the item permanently, or
yields NotFound when no item carries the id. -/
def deleteTodoApi (db : Db) (id : String) : Except ApiError Db :=
  if db.items.any (fun t => t.id == id) then
    .ok { db with items := db.items.filter (fun t => !(t.id == id)) }
  else .error .notFound

/-- Modelled from the spec: merge-patch `update` semantics, where each field
present in the payload overwrites the stored value and absent fields are left
unchanged. -/
def applyPatch (t : Todo) (p : UpdatePayload) : Todo :=
  { t with
      title := p.title.getD t.title,
      description := match p.description with
        | some d => some d
        | none => t.description,
      completed := p.completed.getD t.completed }

/-- A fresh id appended at the tail is the first (and only) match of `find?`
when no earlier item carries it. -/
lemma find_append_fresh (l : List Todo) (t : Todo)
    (h : ∀ u ∈ l, u.id ≠ t.id) :
    (l ++ [t]).find? (fun u => u.id == t.id) = some t := by
  induction l with
  | nil => simp [List.find?]
  | cons a l ih =>
      have ha : (a.id == t.id) = false := by
        exact beq_eq_false_iff_ne.mpr (h a (by simp))
      simp only [List.cons_append, List.find?_cons, ha]
      exact ih (fun u hu => h u (by simp [hu]))

/-- After filtering out every item carrying an id, no item of the result
satisfies the id test. -/
lemma any_filter_ne (l : List Todo) (id : String) :
    (l.filter (fun t => !(t.id == id))).any (fun t => t.id == id) = false := by
  induction l with
  | nil => rfl
  | cons a l ih =>
      by_cases h : (a.id == id) = true
      · simp [List.filter, h, ih]
      · simp only [Bool.not_eq_true] at h
        simp [List.filter, h, ih]

/-- Sample item used for concrete witnesses. -/
def sampleTodo : Todo :=
  { id := "7", title := "Write docs", description := some "core spec",
    completed := false, created_at := 5 }

/-- Sample component state with a non-blank form title, not editing. -/
def sampleState : AppState :=
  { todos := [sampleTodo], loading := false, error := none,
    formData := { title := "Buy milk", description := "two" },
    editingId := none }

/-- Sample component state with a blank (whitespace-only) form title. -/
def blankState : AppState :=
  { todos := [sampleTodo], loading := false, error := none,
    formData := { title := "   ", description := "x" },
    editingId := none }

/-- Sample component state in editing mode with a non-blank form title. -/
def editingState : AppState :=
  { todos := [sampleTodo], loading := false, error := none,
    formData := { title := "New title", description := "d" },
    editingId := some "7" }

/-- C10: with REACT_APP_API_BASE_URL unset, the base URL defaults to the
literal with a trailing slash, so every request URL built from it carries a
double slash before the path. -/
theorem c10_default_base_url_double_slash :
    API_BASE_URL none = "http://backend:8000/"
    ∧ todosUrl none = "http://backend:8000//todos"
    ∧ ∀ id : String, todoItemUrl none id = "http://backend:8000//todos/" ++ id := by
  refine ⟨rfl, rfl, fun id => ?_⟩
  have h : API_BASE_URL none ++ "/todos/" = "http://backend:8000//todos/" := rfl
  rw [todoItemUrl, h]

/-- C8: a failed list fetch keeps the previously displayed todos (the state's
todo list is only overwritten by a successful response), and after every
fetchTodos run, successful or not, the loading flag is false. -/
theorem c8_fetch_failure_keeps_todos (env : Option String) (s : AppState)
    (err : String) (l : List Todo) (fr : Except String (List Todo)) :
    (fetchTodos env s (.error err)).state.todos = s.todos
    ∧ (fetchTodos env s (.ok l)).state.todos = l
    ∧ (fetchTodos env s fr).state.loading = false := by
  refine ⟨rfl, rfl, ?_⟩
  cases fr <;> rfl

/-- C9: the delete handler issues the DELETE request only when the
confirmation dialog is accepted; when it is declined, no request is made and
the state (in particular the displayed todo list) is unchanged. -/
theorem c9_delete_needs_confirm (env : Option String) (s : AppState)
    (tid : String) (mr : Except String Unit)
    (fr : Except String (List Todo)) :
    handleDelete env s tid false mr fr
      = { state := s, requests := [], consoleLogs := [] }
    ∧ (handleDelete env s tid true mr fr).requests.head?
      = some (Request.deleteTodo (todoItemUrl env tid)) := by
  constructor
  · rfl
  · cases mr <;> rfl

/-- C3: the complete/undo action sends a PUT whose body has `completed` as its
only present field, set to the negation of the todo's current value; the
Completed-to-Pending undo is the same statement at `completed = true`. -/
theorem c3_toggle_payload_only_completed (env : Option String) (s : AppState)
    (todo : Todo) (mr : Except String Unit)
    (fr : Except String (List Todo)) :
    (handleToggleComplete env s todo mr fr).requests.head?
      = some (Request.putTodo (todoItemUrl env todo.id)
          { title := none, description := none,
            completed := some (!todo.completed) }) := by
  cases mr <;> rfl

/-- C2: when the form title is missing or blank after trimming, submitting
returns before any HTTP request: no request is issued and the todo list, form
data and editing state are all unchanged. -/
theorem c2_blank_title_rejected (env : Option String) (s : AppState)
    (mr : Except String Unit) (fr : Except String (List Todo))
    (h : jsTrim s.formData.title = "") :
    handleSubmit env s mr fr
      = { state := s, requests := [], consoleLogs := [] } := by
  unfold handleSubmit
  simp [h]

/-- Witness for C2 at a whitespace-only title. -/
theorem c2_blank_title_rejected_witness :
    handleSubmit none blankState (.ok ()) (.ok [])
      = { state := blankState, requests := [], consoleLogs := [] } :=
  c2_blank_title_rejected none blankState (.ok ()) (.ok []) (by decide)

/-- C4: the edit-save PUT body is built from `formData`, whose fields are only
`title` and `description` (`completed` is never a key), and merge-patch with
such a payload leaves the stored `completed` value unchanged for every todo
and every form content. -/
theorem c4_edit_never_changes_completed (env : Option String) (s : AppState)
    (eid : String) (mr : Except String Unit) (fr : Except String (List Todo))
    (t : Todo) (fd : FormData)
    (hEdit : s.editingId = some eid) (hTitle : jsTrim s.formData.title ≠ "") :
    (handleSubmit env s mr fr).requests.head?
      = some (Request.putTodo (todoItemUrl env eid) (payloadOfForm s.formData))
    ∧ (payloadOfForm fd).completed = none
    ∧ applyPatch t (payloadOfForm fd)
      = { t with title := fd.title, description := some fd.description } := by
  refine ⟨?_, rfl, rfl⟩
  unfold handleSubmit
  rw [if_neg hTitle, hEdit]
  cases mr <;> rfl

/-- Witness for C4 at a concrete editing state, todo and form content. -/
theorem c4_edit_never_changes_completed_witness :
    (handleSubmit none editingState (.ok ()) (.ok [])).requests.head?
      = some (Request.putTodo (todoItemUrl none "7")
          (payloadOfForm editingState.formData))
    ∧ (payloadOfForm { title := "New title", description := "d" }).completed
      = none
    ∧ applyPatch sampleTodo
        (payloadOfForm { title := "New title", description := "d" })
      = { sampleTodo with title := "New title", description := some "d" } :=
  c4_edit_never_changes_completed none editingState "7" (.ok ()) (.ok [])
    sampleTodo { title := "New title", description := "d" } rfl (by decide)

/-- C5: every failed request sets a fixed generic banner string for that
operation, independent of the error detail, which is logged separately to the
console; the page renders at most one error element (no per-field errors). -/
theorem c5_generic_banner (env : Option String) (s : AppState) (todo : Todo)
    (tid err : String) (fr : Except String (List Todo))
    (hTitle : jsTrim s.formData.title ≠ "") :
    (fetchTodos env s (.error err)).state.error
      = some "Failed to fetch todos. Make sure the backend is running."
    ∧ (fetchTodos env s (.error err)).consoleLogs
      = ["Error fetching todos: " ++ err]
    ∧ (handleSubmit env s (.error err) fr).state.error
      = some "Failed to save todo"
    ∧ (handleSubmit env s (.error err) fr).consoleLogs
      = ["Error saving todo: " ++ err]
    ∧ (handleToggleComplete env s todo (.error err) fr).state.error
      = some "Failed to update todo"
    ∧ (handleToggleComplete env s todo (.error err) fr).consoleLogs
      = ["Error updating todo: " ++ err]
    ∧ (handleDelete env s tid true (.error err) fr).state.error
      = some "Failed to delete todo"
    ∧ (handleDelete env s tid true (.error err) fr).consoleLogs
      = ["Error deleting todo: " ++ err]
    ∧ ∀ s2 : AppState, (renderedErrors s2).length ≤ 1 := by
  refine ⟨rfl, rfl, ?_, ?_, rfl, rfl, rfl, rfl, ?_⟩
  · unfold handleSubmit
    rw [if_neg hTitle]
  · unfold handleSubmit
    rw [if_neg hTitle]
  · intro s2
    unfold renderedErrors
    cases s2.error <;> simp

/-- Witness for C5 at a concrete state and error detail. -/
theorem c5_generic_banner_witness :
    (fetchTodos none sampleState (.error "boom")).state.error
      = some "Failed to fetch todos. Make sure the backend is running."
    ∧ (fetchTodos none sampleState (.error "boom")).consoleLogs
      = ["Error fetching todos: " ++ "boom"]
    ∧ (handleSubmit none sampleState (.error "boom") (.ok [])).state.error
      = some "Failed to save todo"
    ∧ (handleSubmit none sampleState (.error "boom") (.ok [])).consoleLogs
      = ["Error saving todo: " ++ "boom"]
    ∧ (handleToggleComplete none sampleState sampleTodo
        (.error "boom") (.ok [])).state.error
      = some "Failed to update todo"
    ∧ (handleToggleComplete none sampleState sampleTodo
        (.error "boom") (.ok [])).consoleLogs
      = ["Error updating todo: " ++ "boom"]
    ∧ (handleDelete none sampleState "7" true
        (.error "boom") (.ok [])).state.error
      = some "Failed to delete todo"
    ∧ (handleDelete none sampleState "7" true
        (.error "boom") (.ok [])).consoleLogs
      = ["Error deleting todo: " ++ "boom"]
    ∧ ∀ s2 : AppState, (renderedErrors s2).length ≤ 1 :=
  c5_generic_banner none sampleState sampleTodo "7" "boom" (.ok [])
    (by decide)

/-- C1: the mount effect issues the list request exactly once; each
successful mutating handler (create/edit submit, completion toggle, delete)
issues its mutation followed by the same list request; the displayed todo
list changes only by storing the response of a successful list fetch, and is
untouched by every failing or non-fetching handler. -/
theorem c1_refetch_list_only (env : Option String) (s : AppState)
    (todo : Todo) (tid err : String) (fr : Except String (List Todo))
    (hTitle : jsTrim s.formData.title ≠ "") :
    (onMount env fr).requests = [Request.getTodos (todosUrl env)]
    ∧ (handleSubmit env s (.ok ()) fr).requests
      = [(match s.editingId with
          | some eid =>
              Request.putTodo (todoItemUrl env eid) (payloadOfForm s.formData)
          | none => Request.postTodo (todosUrl env) s.formData),
         Request.getTodos (todosUrl env)]
    ∧ (handleToggleComplete env s todo (.ok ()) fr).requests
      = [Request.putTodo (todoItemUrl env todo.id)
           { title := none, description := none,
             completed := some (!todo.completed) },
         Request.getTodos (todosUrl env)]
    ∧ (handleDelete env s tid true (.ok ()) fr).requests
      = [Request.deleteTodo (todoItemUrl env tid),
         Request.getTodos (todosUrl env)]
    ∧ (onMount env fr).state.todos
      = (match fr with | .ok l => l | .error _ => initialState.todos)
    ∧ (handleSubmit env s (.ok ()) fr).state.todos
      = (match fr with | .ok l => l | .error _ => s.todos)
    ∧ (handleToggleComplete env s todo (.ok ()) fr).state.todos
      = (match fr with | .ok l => l | .error _ => s.todos)
    ∧ (handleDelete env s tid true (.ok ()) fr).state.todos
      = (match fr with | .ok l => l | .error _ => s.todos)
    ∧ (handleSubmit env s (.error err) fr).state.todos = s.todos
    ∧ (handleToggleComplete env s todo (.error err) fr).state.todos = s.todos
    ∧ (handleDelete env s tid true (.error err) fr).state.todos = s.todos
    ∧ (handleDelete env s tid false (.ok ()) fr).state.todos = s.todos
    ∧ (handleEdit s todo).todos = s.todos
    ∧ (handleCancelEdit s).todos = s.todos := by
  cases fr <;>
    simp [onMount, fetchTodos, handleSubmit, handleToggleComplete,
      handleDelete, handleEdit, handleCancelEdit, initialState, hTitle]

/-- Witness for C1 at a concrete state, todo and fetch response. -/
theorem c1_refetch_list_only_witness :
    (onMount none (.ok [])).requests = [Request.getTodos (todosUrl none)]
    ∧ (handleSubmit none sampleState (.ok ()) (.ok [])).requests
      = [(match sampleState.editingId with
          | some eid =>
              Request.putTodo (todoItemUrl none eid)
                (payloadOfForm sampleState.formData)
          | none =>
              Request.postTodo (todosUrl none) sampleState.formData),
         Request.getTodos (todosUrl none)]
    ∧ (handleToggleComplete none sampleState sampleTodo
        (.ok ()) (.ok [])).requests
      = [Request.putTodo (todoItemUrl none sampleTodo.id)
           { title := none, description := none,
             completed := some (!sampleTodo.completed) },
         Request.getTodos (todosUrl none)]
    ∧ (handleDelete none sampleState "7" true (.ok ()) (.ok [])).requests
      = [Request.deleteTodo (todoItemUrl none "7"),
         Request.getTodos (todosUrl none)]
    ∧ (onMount none (.ok [])).state.todos
      = (match (.ok [] : Except String (List Todo)) with
         | .ok l => l | .error _ => initialState.todos)
    ∧ (handleSubmit none sampleState (.ok ()) (.ok [])).state.todos
      = (match (.ok [] : Except String (List Todo)) with
         | .ok l => l | .error _ => sampleState.todos)
    ∧ (handleToggleComplete none sampleState sampleTodo
        (.ok ()) (.ok [])).state.todos
      = (match (.ok [] : Except String (List Todo)) with
         | .ok l => l | .error _ => sampleState.todos)
    ∧ (handleDelete none sampleState "7" true (.ok ()) (.ok [])).state.todos
      = (match (.ok [] : Except String (List Todo)) with
         | .ok l => l | .error _ => sampleState.todos)
    ∧ (handleSubmit none sampleState (.error "boom") (.ok [])).state.todos
      = sampleState.todos
    ∧ (handleToggleComplete none sampleState sampleTodo
        (.error "boom") (.ok [])).state.todos = sampleState.todos
    ∧ (handleDelete none sampleState "7" true
        (.error "boom") (.ok [])).state.todos = sampleState.todos
    ∧ (handleDelete none sampleState "7" false
        (.ok ()) (.ok [])).state.todos = sampleState.todos
    ∧ (handleEdit sampleState sampleTodo).todos = sampleState.todos
    ∧ (handleCancelEdit sampleState).todos = sampleState.todos :=
  c1_refetch_list_only none sampleState sampleTodo "7" "boom" (.ok [])
    (by decide)

/-- C6: for every valid create payload, getting the id of the item returned
by create yields the created item itself, hence an item equal to it in every
field (in particular in all fields other than the server-assigned `id` and
`created_at`). -/
theorem c6_create_get_roundtrip (db : Db) (p : CreatePayload) (t : Todo)
    (db2 : Db)
    (hfresh : ∀ u ∈ db.items, u.id ≠ toString db.nextId)
    (hc : createTodo db p = .ok (t, db2)) :
    getTodoApi db2 t.id = .ok t := by
  unfold createTodo at hc
  by_cases hv : jsTrim p.title = ""
  · rw [if_pos hv] at hc
    simp at hc
  · rw [if_neg hv] at hc
    simp only [Except.ok.injEq, Prod.mk.injEq] at hc
    obtain ⟨ht, hdb⟩ := hc
    subst ht
    subst hdb
    have hfind := find_append_fresh db.items
      { id := toString db.nextId, title := p.title,
        description := p.description, completed := false,
        created_at := db.now } hfresh
    simp [getTodoApi, hfind]

/-- Witness for C6: creating in an empty store and getting the new id. -/
theorem c6_create_get_roundtrip_witness :
    getTodoApi
      { items := [{ id := "0", title := "Buy milk", description := some "x",
                    completed := false, created_at := 42 }],
        nextId := 1, now := 42 } "0"
      = .ok { id := "0", title := "Buy milk", description := some "x",
              completed := false, created_at := 42 } :=
  c6_create_get_roundtrip { items := [], nextId := 0, now := 42 }
    { title := "Buy milk", description := some "x" }
    { id := "0", title := "Buy milk", description := some "x",
      completed := false, created_at := 42 }
    { items := [{ id := "0", title := "Buy milk", description := some "x",
                  completed := false, created_at := 42 }],
      nextId := 1, now := 42 }
    (by simp) rfl

/-- C7: deleting an id that no stored item carries, whether never created or
already deleted (the store is the result of a delete of that id), yields
exactly the NotFound outcome, never a different error; hence repeating a
delete yields NotFound again. -/
theorem c7_delete_absent_notfound (db : Db) (id : String)
    (h : (∀ u ∈ db.items, u.id ≠ id)
         ∨ ∃ prev : Db, deleteTodoApi prev id = .ok db) :
    deleteTodoApi db id = .error .notFound := by
  have habs : db.items.any (fun t => t.id == id) = false := by
    rcases h with h | ⟨prev, hprev⟩
    · apply List.any_eq_false.mpr
      intro t ht
      simp [h t ht]
    · unfold deleteTodoApi at hprev
      by_cases hany : prev.items.any (fun t => t.id == id)
      · rw [if_pos hany] at hprev
        simp only [Except.ok.injEq] at hprev
        subst hprev
        exact any_filter_ne prev.items id
      · rw [if_neg hany] at hprev
        simp at hprev
  unfold deleteTodoApi
  simp [habs]

/-- Witness for C7: deleting a never-created id from a concrete store. -/
theorem c7_delete_absent_notfound_witness :
    deleteTodoApi { items := [sampleTodo], nextId := 8, now := 0 } "9"
      = .error .notFound :=
  c7_delete_absent_notfound
    { items := [sampleTodo], nextId := 8, now := 0 } "9"
    (Or.inl (by decide))
